import Mathlib

/-!
# Shallow embedding of the chemistry-partner MCQ grading backend

This file embeds the scoring / submission logic of the repository
(`src/app/routers/papers.py`, `src/main.py`, `src/routes.py`,
`src/app/schemas/mcq.py`, `src/models.py`, `src/utils.py`) and proves or
refutes the specified properties of the answer-key store, the scoring
engine, the submission recorder and the results aggregator.

Option values are embedded polymorphically (a type `α` with decidable
equality) because the source compares options with Python `==` and stores
them sometimes as integers (`app/models/mcq.py`) and sometimes as
single-letter strings (`models.py`); the database-level operations are
instantiated at `Int`, matching `app/models/mcq.py`.

Percentages computed with Python float division are embedded as exact
rationals `ℚ`; every concrete value appearing in the development is exactly
representable, so no rounding behaviour is lost.
-/

namespace ChemPartner

/-- One submitted answer: the pair a student submits for one question
(`app/schemas/mcq.py`, `AnswerSubmission`; also the shape of the dicts in
`PaperSubmission.answers` that `submit_paper`, `get_paper_results` and
`check_user_answers` read the keys `question_number` / `selected_option`
from). -/
structure SubmittedAnswer (α : Type) where
  question_number : Int
  selected_option : α
deriving Repr, DecidableEq

/-- Last-write-wins dictionary lookup over an association list, the
semantics of the Python dict comprehension
`{ans.question_number: ans.correct_option for ans in correct_answers}`:
a later entry for the same key overwrites an earlier one. -/
def dictOf {α : Type} : List (Int × α) → Int → Option α
  | [], _ => none
  | p :: rest, k =>
    match dictOf rest k with
    | some v => some v
    | none => if p.1 = k then some p.2 else none

/-- The per-answer correctness test shared by `submit_paper`,
`get_paper_results` and `check_user_answers`:
`answer.question_number in correct_dict and
 correct_dict[answer.question_number] == answer.selected_option`. -/
def isCorrect {α : Type} [DecidableEq α] (key : List (Int × α))
    (a : SubmittedAnswer α) : Bool :=
  decide (dictOf key a.question_number = some a.selected_option)

/-- `total_correct` as computed by the scoring loops: the number of
submitted answers whose question is in the key dict with an equal option. -/
def total_correct_of {α : Type} [DecidableEq α] (key : List (Int × α))
    (answers : List (SubmittedAnswer α)) : Nat :=
  answers.countP (isCorrect key)

/-- A FastAPI `HTTPException` as raised by the endpoints: a status code and
a detail string. -/
structure HTTPError where
  status_code : Nat
  detail : String
deriving Repr, DecidableEq

deriving instance DecidableEq for Except

/-- An `mcq_answers` row (`app/models/mcq.py`): the stored answer-key entry
for one question of one paper. -/
structure MCQAnswer where
  paper_id : Nat
  question_number : Int
  correct_option : Int
deriving Repr, DecidableEq

/-- A `paper_submissions` row. The columns `time_spent`, `marks` and the
persisted `answers` collection come from `models.py` / the
`add_answers_to_paper_submissions` migration; the `Submission` model of the
`app` package is imported by `app/routers/papers.py` but its module is not
in the repository tree, so the shape of its `answers` attribute is
modelled from the spec: the ordered collection of
(question_number, selected_option) pairs, written once. -/
structure PaperSubmissionRow where
  paper_id : Nat
  user_id : Nat
  time_spent : Int
  marks : Nat
  answers : List (SubmittedAnswer Int)
deriving Repr, DecidableEq

/-- The relational state the embedded operations act on: the papers table
(only ids matter here), the answer-key store and the submissions table. -/
structure DB where
  papers : List Nat
  mcq_answers : List MCQAnswer
  paper_submissions : List PaperSubmissionRow
deriving Repr, DecidableEq

/-- The key rows of one paper, in insertion order
(`db.query(MCQAnswer).filter(MCQAnswer.paper_id == paper_id).all()`). -/
def keyRows (db : DB) (paper_id : Nat) : List MCQAnswer :=
  db.mcq_answers.filter (fun r => r.paper_id = paper_id)

/-- The `(question_number, correct_option)` pairs of one paper's key rows,
the input of the `correct_dict` comprehension. -/
def keyPairs (db : DB) (paper_id : Nat) : List (Int × Int) :=
  (keyRows db paper_id).map (fun r => (r.question_number, r.correct_option))

/-- `get_answer_key(paper_id)` (§4.1 of the spec): the current mapping from
question_number to correct_option, empty when no key has been uploaded.
In the source this is the `correct_dict` each endpoint rebuilds. -/
def get_answer_key (db : DB) (paper_id : Nat) : Int → Option Int :=
  dictOf (keyPairs db paper_id)

/-- `GET /papers/{paper_id}` (`app/routers/papers.py`, `get_paper`): 404
`"Paper not found"` when the paper id is absent. -/
def get_paper (db : DB) (paper_id : Nat) : Except HTTPError Nat :=
  if paper_id ∈ db.papers then .ok paper_id
  else .error ⟨404, "Paper not found"⟩

/-- The request body of `POST /papers/{paper_id}/submit`
(`app/schemas/mcq.py`, `PaperSubmission`): a list of answers and the time
spent. The schema performs no validation beyond the field types. -/
structure PaperSubmission where
  answers : List (SubmittedAnswer Int)
  time_spent : Int
deriving Repr, DecidableEq

/-- The response body of `POST /papers/{paper_id}/submit`
(`app/schemas/mcq.py`, `SubmissionResult`). The schema declares
`total_questions: int = 50`, and `submit_paper` does not pass the field,
so every response carries the default. -/
structure SubmissionResult where
  total_correct : Nat
  total_questions : Nat
  score_percentage : ℚ
  time_spent : Int
deriving Repr, DecidableEq

/-- The outcome of an endpoint that may write: the HTTP response paired
with the database state after the request. -/
structure Outcome (ρ : Type) where
  response : Except HTTPError ρ
  db : DB
deriving Repr, DecidableEq

/-- `POST /papers/{paper_id}/submit` (`app/routers/papers.py`,
`submit_paper`). Reads the key rows; 404 `"No answers found for this
paper"` when they are empty; otherwise counts correct answers and returns
`score_percentage = (total_correct / 50) * 100` with the schema default
`total_questions = 50`. The handler contains no `db.add`/`db.commit`, so
the database after the request equals the database before it. -/
def submit_paper (db : DB) (paper_id : Nat) (submission : PaperSubmission) :
    Outcome SubmissionResult :=
  if (keyRows db paper_id).isEmpty then
    ⟨.error ⟨404, "No answers found for this paper"⟩, db⟩
  else
    let total_correct := total_correct_of (keyPairs db paper_id) submission.answers
    let score_percentage : ℚ := ((total_correct : ℚ) / 50) * 100
    ⟨.ok ⟨total_correct, 50, score_percentage, submission.time_spent⟩, db⟩

/-- One entry of `GET /papers/{paper_id}/results`
(`app/routers/papers.py`, `get_paper_results`). The source joins the
student's username; the embedding keeps the `user_id` the username is
looked up by, which is faithful for every property about scores. -/
structure StudentResult where
  user_id : Nat
  total_correct : Nat
  score_percentage : ℚ
  time_spent : Int
deriving Repr, DecidableEq

/-- `GET /papers/{paper_id}/results` (`app/routers/papers.py`,
`get_paper_results`): for every submission of the paper, recomputes
`total_correct` against the paper's *current* `correct_dict` and reports
`score_percentage = (total_correct / 50) * 100`. Read-only. -/
def get_paper_results (db : DB) (paper_id : Nat) : List StudentResult :=
  let correct_pairs := keyPairs db paper_id
  (db.paper_submissions.filter (fun s => s.paper_id = paper_id)).map
    (fun s =>
      let total_correct := total_correct_of correct_pairs s.answers
      ⟨s.user_id, total_correct, ((total_correct : ℚ) / 50) * 100, s.time_spent⟩)

/-- One entry of the `detailed_results` list built by `check_user_answers`
(`main.py`): the submitted pair, the key's option for the question (`None`
when the question is not in the key) and the correctness flag. -/
structure DetailedResult (α : Type) where
  question_number : Int
  selected_option : α
  correct_option : Option α
  is_correct : Bool
deriving Repr, DecidableEq

/-- The response body of `GET /papers/{paper_id}/answers/check`
(`main.py`, `check_user_answers`). -/
structure CheckResult (α : Type) where
  total_questions : Nat
  total_correct : Nat
  score_percentage : ℚ
  detailed_results : List (DetailedResult α)
deriving Repr, DecidableEq

/-- The `results` list built by the loop of `check_user_answers`: one entry
per submitted answer, in submission order, with
`correct_option = correct_dict.get(question_number)`. -/
def check_details {α : Type} [DecidableEq α] (key : List (Int × α))
    (answers : List (SubmittedAnswer α)) : List (DetailedResult α) :=
  answers.map (fun a =>
    ⟨a.question_number, a.selected_option, dictOf key a.question_number,
      isCorrect key a⟩)

/-- The scoring core of `GET /papers/{paper_id}/answers/check` (`main.py`,
`check_user_answers`), given the paper's key rows (as their
question/option pairs, in row order) and the stored submission's answers:
404 when no key rows exist, otherwise `total_questions` is the key row
count and `score_percentage = (total_correct / len(correct_answers)) * 100`.
It is polymorphic in the option type because this call path compares the
`String(1)` column of `models.py` with JSON values under Python `==`. -/
def check_user_answers {α : Type} [DecidableEq α] (key : List (Int × α))
    (answers : List (SubmittedAnswer α)) : Except HTTPError (CheckResult α) :=
  if key.isEmpty then .error ⟨404, "No answers found for this paper"⟩
  else
    let total_correct := total_correct_of key answers
    .ok ⟨key.length, total_correct,
      ((total_correct : ℚ) / (key.length : ℚ)) * 100,
      check_details key answers⟩

/-- The full endpoint `GET /papers/{paper_id}/answers/check` (`main.py`):
looks up the caller's first submission for the paper (404 `"No submission
found for this paper"` when there is none) and scores its stored answers
against the paper's current key rows. Read-only. -/
def check_user_answers_endpoint (db : DB) (paper_id user_id : Nat) :
    Except HTTPError (CheckResult Int) :=
  match (db.paper_submissions.filter
      (fun s => s.paper_id = paper_id ∧ s.user_id = user_id)).head? with
  | none => .error ⟨404, "No submission found for this paper"⟩
  | some sub => check_user_answers (keyPairs db paper_id) sub.answers

/-- One data row of the uploaded answer-key spreadsheet, after the column
check has passed: the two required cells. A cell is `some n` when Python
`int(cell)` succeeds with value `n`, and `none` when `int(cell)` raises. -/
structure ExcelRow where
  question_number : Option Int
  correct_option : Option Int
deriving Repr, DecidableEq

/-- One iteration of the insert loop of `upload_mcq_answers`:
`MCQAnswer(paper_id=paper_id, question_number=int(...), correct_option=int(...))`,
`none` when either `int()` conversion raises. -/
def parseRow (paper_id : Nat) (r : ExcelRow) : Option MCQAnswer :=
  match r.question_number, r.correct_option with
  | some q, some o => some ⟨paper_id, q, o⟩
  | _, _ => none

/-- The whole insert loop: the rows the loop would add, or `none` when any
row raises (in the source the first bad row raises and the `except` branch
rolls the transaction back, so the loop's effect is all-or-nothing). -/
def parseRows (paper_id : Nat) : List ExcelRow → Option (List MCQAnswer)
  | [] => some []
  | r :: rest =>
    match parseRow paper_id r, parseRows paper_id rest with
    | some a, some tl => some (a :: tl)
    | _, _ => none

/-- `POST /papers/{paper_id}/answers/upload` (`main.py`,
`upload_mcq_answers`; `app/routers/papers.py`, `upload_answers_excel` is
line-for-line the same transaction): inside one transaction, delete every
existing key row of the paper, insert one row per spreadsheet row, commit;
on any exception roll back, so the pre-replace state is kept, and re-raise
as a 400 whose detail is `str(e)` (embedded as a fixed placeholder, only
the status code is specified behaviour). -/
def upload_mcq_answers (db : DB) (paper_id : Nat) (rows : List ExcelRow) :
    Outcome Unit :=
  match parseRows paper_id rows with
  | none => ⟨.error ⟨400, "invalid literal for int()"⟩, db⟩
  | some newRows =>
    ⟨.ok (),
      { db with mcq_answers :=
          db.mcq_answers.filter (fun r => ¬r.paper_id = paper_id) ++ newRows }⟩

/-- `utils.check_answers`, restricted to its MCQ component: one mark per
stored key row whose question appears in the submitted mapping with an
equal option (`int(user_answers[str(mcq.question_number)]) ==
mcq.correct_option`). The function also walks the `questions` table, but
no route of the repository ever creates a `Question` row, so that loop
adds zero marks on every reachable state and is not modelled. -/
def check_answers (db : DB) (paper_id : Nat)
    (user_answers : List (Int × Int)) : Nat :=
  (keyRows db paper_id).countP
    (fun mcq => decide (dictOf user_answers mcq.question_number = some mcq.correct_option))

/-- `POST /submit-paper/{paper_id}` (`routes.py`, `submit_paper`): computes
the marks with `check_answers`, then persists exactly one
`PaperSubmission` row holding the submitted answers (stored as JSON; the
dict body is embedded as its ordered entries) and the computed marks. -/
def submit_paper_routes (db : DB) (paper_id user_id : Nat)
    (answers : List (SubmittedAnswer Int)) (time_spent : Int) : Outcome Nat :=
  let pairs := answers.map (fun a => (a.question_number, a.selected_option))
  let total_marks := check_answers db paper_id pairs
  ⟨.ok total_marks,
    { db with paper_submissions :=
        db.paper_submissions ++ [⟨paper_id, user_id, time_spent, total_marks, answers⟩] }⟩

/-! ### Concrete states used by counterexamples and witnesses -/

/-- A paper (id 1) with the one-question answer key {1 ↦ 1}. -/
def dbOneKey : DB := ⟨[1], [⟨1, 1, 1⟩], []⟩

/-- A paper (id 1) that exists but has no answer key. -/
def dbNoKey : DB := ⟨[1], [], []⟩

/-- The empty database: paper 1 does not exist. -/
def dbEmpty : DB := ⟨[], [], []⟩

/-! ### Helper lemmas about the dictionary and the upload transaction -/

theorem dictOf_eq_some_mem {α : Type} {l : List (Int × α)} {k : Int} {v : α}
    (h : dictOf l k = some v) : k ∈ l.map Prod.fst := by
  induction l with
  | nil => simp [dictOf] at h
  | cons p rest ih =>
    simp only [List.map_cons, List.mem_cons]
    simp only [dictOf] at h
    cases hr : dictOf rest k with
    | some w =>
      rw [hr] at h
      exact Or.inr (ih (hr.trans h))
    | none =>
      rw [hr] at h
      by_cases hp : p.1 = k
      · exact Or.inl hp.symm
      · simp [hp] at h

theorem dictOf_eq_none_of_not_mem {α : Type} {l : List (Int × α)} {k : Int}
    (h : k ∉ l.map Prod.fst) : dictOf l k = none := by
  induction l with
  | nil => rfl
  | cons p rest ih =>
    simp only [List.map_cons, List.mem_cons, not_or] at h
    simp only [dictOf, ih h.2]
    have hp : ¬p.1 = k := fun hp => h.1 hp.symm
    simp [hp]

theorem parseRows_eq_none {pid : Nat} {rows : List ExcelRow}
    (h : ∃ r ∈ rows, parseRow pid r = none) : parseRows pid rows = none := by
  induction rows with
  | nil => simp at h
  | cons r rest ih =>
    rcases h with ⟨b, hb, hbad⟩
    rcases List.mem_cons.mp hb with rfl | hbrest
    · simp [parseRows, hbad]
    · simp [parseRows, ih ⟨b, hbrest, hbad⟩]

theorem parseRow_paper_id {pid : Nat} {r : ExcelRow} {a : MCQAnswer}
    (h : parseRow pid r = some a) : a.paper_id = pid := by
  unfold parseRow at h
  cases hq : r.question_number <;> rw [hq] at h
  · simp at h
  · cases ho : r.correct_option <;> rw [ho] at h
    · simp at h
    · cases h; rfl

theorem parseRows_paper_id {pid : Nat} {rows : List ExcelRow}
    {N : List MCQAnswer} (h : parseRows pid rows = some N) :
    ∀ a ∈ N, a.paper_id = pid := by
  induction rows generalizing N with
  | nil =>
    simp only [parseRows] at h
    cases h; simp
  | cons r rest ih =>
    simp only [parseRows] at h
    cases hr : parseRow pid r with
    | none => rw [hr] at h; exact absurd h (by simp)
    | some a =>
      rw [hr] at h
      cases htl : parseRows pid rest with
      | none => rw [htl] at h; exact absurd h (by simp)
      | some tl =>
        rw [htl] at h
        cases h
        intro b hb
        rcases List.mem_cons.mp hb with rfl | hbtl
        · exact parseRow_paper_id hr
        · exact ih htl b hbtl

theorem upload_submissions_eq (db : DB) (pid : Nat) (rows : List ExcelRow) :
    (upload_mcq_answers db pid rows).db.paper_submissions =
      db.paper_submissions := by
  unfold upload_mcq_answers
  cases parseRows pid rows <;> rfl

theorem upload_papers_eq (db : DB) (pid : Nat) (rows : List ExcelRow) :
    (upload_mcq_answers db pid rows).db.papers = db.papers := by
  unfold upload_mcq_answers
  cases parseRows pid rows <;> rfl

theorem filter_ne_filter_eq (pid : Nat) (l : List MCQAnswer) :
    (l.filter (fun r => ¬r.paper_id = pid)).filter (fun r => r.paper_id = pid)
      = [] := by
  induction l with
  | nil => rfl
  | cons a tl ih => by_cases hp : a.paper_id = pid <;> simp [List.filter, hp, ih]

theorem keyRows_upload_self {db : DB} {pid : Nat} {rows : List ExcelRow}
    {N : List MCQAnswer} (h : parseRows pid rows = some N) :
    keyRows (upload_mcq_answers db pid rows).db pid = N := by
  have hN := parseRows_paper_id h
  have h2 : N.filter (fun a => a.paper_id = pid) = N :=
    List.filter_eq_self.mpr (fun a ha => by simp [hN a ha])
  simp [upload_mcq_answers, h, keyRows, List.filter_append,
    filter_ne_filter_eq, h2]

theorem keyRows_upload_other {db : DB} {pid : Nat} {rows : List ExcelRow}
    {N : List MCQAnswer} {pid2 : Nat} (h : parseRows pid rows = some N)
    (hne : pid2 ≠ pid) :
    keyRows (upload_mcq_answers db pid rows).db pid2 = keyRows db pid2 := by
  have hN := parseRows_paper_id h
  have h2 : N.filter (fun a => a.paper_id = pid2) = [] :=
    List.filter_eq_nil_iff.mpr (fun a ha => by simp [hN a ha, Ne.symm hne])
  have h3 : db.mcq_answers.filter
        (fun a => decide (a.paper_id = pid2) && !decide (a.paper_id = pid))
      = db.mcq_answers.filter (fun r => decide (r.paper_id = pid2)) := by
    apply List.filter_congr
    intro a _
    by_cases hq : a.paper_id = pid2
    · have hp : ¬a.paper_id = pid := fun hp => hne (hq.symm.trans hp)
      simp [hq, hp, hne]
    · simp [hq]
  simp [upload_mcq_answers, h, keyRows, List.filter_append, List.filter_filter,
    h2, h3]

theorem upload_upload_eq {db : DB} {pid : Nat} {rows : List ExcelRow}
    {N : List MCQAnswer} (h : parseRows pid rows = some N) :
    (upload_mcq_answers (upload_mcq_answers db pid rows).db pid rows).db =
      (upload_mcq_answers db pid rows).db := by
  have hN := parseRows_paper_id h
  have hNq : N.filter (fun r => ¬r.paper_id = pid) = [] :=
    List.filter_eq_nil_iff.mpr (fun a ha => by simp [hN a ha])
  simp [upload_mcq_answers, h, List.filter_append, hNq, List.filter_filter]
  exact hN

theorem submit_paper_ok_of_ne {db : DB} {pid : Nat} {s : PaperSubmission}
    (h : keyRows db pid ≠ []) :
    (submit_paper db pid s).response =
      .ok ⟨total_correct_of (keyPairs db pid) s.answers, 50,
        ((total_correct_of (keyPairs db pid) s.answers : ℚ) / 50) * 100,
        s.time_spent⟩ := by
  simp [submit_paper, List.isEmpty_iff, h]

theorem submit_single_response :
    (submit_paper dbOneKey 1 ⟨[⟨1, 1⟩], 10⟩).response = .ok ⟨1, 50, 2, 10⟩ := by
  have htc : total_correct_of (keyPairs dbOneKey 1)
      ([⟨1, 1⟩] : List (SubmittedAnswer Int)) = 1 := by decide
  rw [submit_paper_ok_of_ne (by decide)]
  simp only [Except.ok.injEq, SubmissionResult.mk.injEq]
  norm_num [htc]

/-! ### The claims -/

/-- C5: replacing an answer key is atomic. If any spreadsheet entry fails
the per-entry conversion, the whole operation is rejected with a 400 and
the database — in particular the pre-replace key of every paper — is left
unchanged (the rollback undoes the delete); on success the response is ok,
the paper's prior entries are all discarded and exactly the parsed new set
is stored, other papers' keys and all submissions being untouched. -/
theorem c5_replace_answer_key_atomic (db : DB) (pid : Nat)
    (rows : List ExcelRow) :
    ((∃ r ∈ rows, parseRow pid r = none) →
      (upload_mcq_answers db pid rows).db = db ∧
        (upload_mcq_answers db pid rows).response =
          .error ⟨400, "invalid literal for int()"⟩) ∧
    (∀ N : List MCQAnswer, parseRows pid rows = some N →
      (upload_mcq_answers db pid rows).response = .ok () ∧
      keyRows (upload_mcq_answers db pid rows).db pid = N ∧
      (∀ pid2, pid2 ≠ pid →
        keyRows (upload_mcq_answers db pid rows).db pid2 = keyRows db pid2) ∧
      (upload_mcq_answers db pid rows).db.paper_submissions =
        db.paper_submissions) := by
  constructor
  · intro hbad
    have hn := parseRows_eq_none hbad
    constructor <;> simp [upload_mcq_answers, hn]
  · intro N h
    exact ⟨by simp [upload_mcq_answers, h], keyRows_upload_self h,
      fun pid2 hne => keyRows_upload_other h hne,
      upload_submissions_eq db pid rows⟩

/-- Witness for C5 at concrete inputs: a batch whose single row has a bad
correct_option cell leaves the one-key database unchanged, and a valid
batch replaces the key of paper 1 with exactly the parsed row. -/
theorem c5_witness :
    ((∃ r ∈ [(⟨some 1, none⟩ : ExcelRow)], parseRow 1 r = none) ∧
      (upload_mcq_answers dbOneKey 1 [⟨some 1, none⟩]).db = dbOneKey) ∧
    (parseRows 1 [(⟨some 2, some 3⟩ : ExcelRow)] = some [⟨1, 2, 3⟩] ∧
      keyRows (upload_mcq_answers dbOneKey 1 [⟨some 2, some 3⟩]).db 1 =
        [⟨1, 2, 3⟩]) :=
  ⟨⟨⟨⟨some 1, none⟩, by decide, by decide⟩,
    ((c5_replace_answer_key_atomic dbOneKey 1 [⟨some 1, none⟩]).1
      ⟨⟨some 1, none⟩, by decide, by decide⟩).1⟩,
   ⟨by decide,
    (((c5_replace_answer_key_atomic dbOneKey 1 [⟨some 2, some 3⟩]).2
      [⟨1, 2, 3⟩] (by decide)).2).1⟩⟩

/-- C9: replacing an answer key twice with the same (valid) entry batch
yields an answer key identical by content — the mapping `get_answer_key`
returns — to replacing it once. -/
theorem c9_replace_answer_key_idempotent (db : DB) (pid : Nat)
    (rows : List ExcelRow) (N : List MCQAnswer)
    (h : parseRows pid rows = some N) :
    get_answer_key
        (upload_mcq_answers (upload_mcq_answers db pid rows).db pid rows).db
        pid
      = get_answer_key (upload_mcq_answers db pid rows).db pid := by
  rw [upload_upload_eq h]

/-- Witness for C9 at a concrete input: uploading the batch {(2,3)} twice
to paper 1 gives the same mapping as uploading it once. -/
theorem c9_witness :
    parseRows 1 [(⟨some 2, some 3⟩ : ExcelRow)] = some [⟨1, 2, 3⟩] ∧
    get_answer_key
        (upload_mcq_answers
          (upload_mcq_answers dbOneKey 1 [⟨some 2, some 3⟩]).db
          1 [⟨some 2, some 3⟩]).db 1
      = get_answer_key (upload_mcq_answers dbOneKey 1 [⟨some 2, some 3⟩]).db 1 :=
  ⟨by decide,
   c9_replace_answer_key_idempotent dbOneKey 1 [⟨some 2, some 3⟩] [⟨1, 2, 3⟩]
     (by decide)⟩

/-- C2 is refuted by the code: `get_paper_results` recomputes every
submission's score against the paper's *current* key at read time, so
replacing the answer key after a submission changes the reported
total_correct. Concretely: record a submission answering question 1 with
option 1 while the key is {1 ↦ 1} (reported total_correct 1), replace the
key with {1 ↦ 2}; the stored submission row is untouched, yet the results
operation now reports total_correct 0. -/
theorem c2_replace_key_changes_reported_results :
    (get_paper_results (submit_paper_routes dbOneKey 1 7 [⟨1, 1⟩] 10).db 1).map
        (fun r => r.total_correct) = [1] ∧
    (upload_mcq_answers (submit_paper_routes dbOneKey 1 7 [⟨1, 1⟩] 10).db 1
        [⟨some 1, some 2⟩]).db.paper_submissions =
      (submit_paper_routes dbOneKey 1 7 [⟨1, 1⟩] 10).db.paper_submissions ∧
    (get_paper_results
        (upload_mcq_answers (submit_paper_routes dbOneKey 1 7 [⟨1, 1⟩] 10).db 1
          [⟨some 1, some 2⟩]).db 1).map (fun r => r.total_correct) = [0] := by
  refine ⟨by decide, by decide, by decide⟩

/-- C2 (amended): no later operation changes a recorded Submission row —
a key replacement leaves `paper_submissions` unchanged — but the result
views are *not* computed from the frozen stored score: after a successful
key replacement the results operation reports, for each stored submission,
the score of its stored answers against the *new* key. -/
theorem c2_stored_rows_frozen_views_recomputed (db : DB) (pid : Nat)
    (rows : List ExcelRow) (N : List MCQAnswer)
    (h : parseRows pid rows = some N) :
    (upload_mcq_answers db pid rows).db.paper_submissions =
        db.paper_submissions ∧
    (get_paper_results (upload_mcq_answers db pid rows).db pid).map
        (fun r => r.total_correct)
      = (db.paper_submissions.filter (fun s => s.paper_id = pid)).map
          (fun s => total_correct_of
            (N.map (fun a => (a.question_number, a.correct_option))) s.answers) := by
  refine ⟨upload_submissions_eq db pid rows, ?_⟩
  have hk : keyPairs (upload_mcq_answers db pid rows).db pid =
      N.map (fun a => (a.question_number, a.correct_option)) := by
    rw [keyPairs, keyRows_upload_self h]
  simp [get_paper_results, hk, upload_submissions_eq db pid rows,
    List.map_map, Function.comp]

/-- Witness for C2 (amended) at a concrete input: replacing the key of
paper 1 with {(2,3)} preserves the stored submission row and reports its
stored answers scored against the new key. -/
theorem c2_witness :
    parseRows 1 [(⟨some 2, some 3⟩ : ExcelRow)] = some [⟨1, 2, 3⟩] ∧
    ((upload_mcq_answers (submit_paper_routes dbOneKey 1 7 [⟨1, 1⟩] 10).db 1
        [⟨some 2, some 3⟩]).db.paper_submissions =
      (submit_paper_routes dbOneKey 1 7 [⟨1, 1⟩] 10).db.paper_submissions ∧
    (get_paper_results
        (upload_mcq_answers (submit_paper_routes dbOneKey 1 7 [⟨1, 1⟩] 10).db 1
          [⟨some 2, some 3⟩]).db 1).map (fun r => r.total_correct)
      = ((submit_paper_routes dbOneKey 1 7 [⟨1, 1⟩] 10).db.paper_submissions.filter
          (fun s => s.paper_id = 1)).map
          (fun s => total_correct_of
            ([(⟨1, 2, 3⟩ : MCQAnswer)].map
              (fun a => (a.question_number, a.correct_option))) s.answers)) :=
  ⟨by decide,
   c2_stored_rows_frozen_views_recomputed
     (submit_paper_routes dbOneKey 1 7 [⟨1, 1⟩] 10).db 1 [⟨some 2, some 3⟩]
     [⟨1, 2, 3⟩] (by decide)⟩

/-- C1 is refuted by the code: on the submit path the denominator is the
hardcoded constant 50, not the answer-key size. For the one-entry key
{1 ↦ 1} and the all-correct submission [(1,1)], `submit_paper` returns
total_questions = 50 (the schema default) and
score_percentage = (1 / 50) * 100 = 2, where the claim requires
total_questions = 1 and 100 * 1 / 1 = 100; and with an empty key both the
submit path and the check path return a 404 error instead of
score_percentage = 0. -/
theorem c1_submit_paper_hardcodes_denominator :
    (submit_paper dbOneKey 1 ⟨[⟨1, 1⟩], 10⟩).response = .ok ⟨1, 50, 2, 10⟩ ∧
    (keyRows dbOneKey 1).length = 1 ∧
    ((2 : ℚ) ≠ 100 * 1 / 1) ∧
    (submit_paper dbNoKey 1 ⟨[], 0⟩).response =
      .error ⟨404, "No answers found for this paper"⟩ ∧
    check_user_answers ([] : List (Int × Int)) ([] : List (SubmittedAnswer Int))
      = .error ⟨404, "No answers found for this paper"⟩ := by
  refine ⟨submit_single_response, by decide, by norm_num, by decide, by decide⟩

/-- C3 is refuted in part by the code: a submission to a paper without an
answer key does record nothing, but it fails with the *generic* HTTP 404 —
the same status code a missing paper produces — distinguishable only by
the detail string, not as a distinct NotGradableError condition. -/
theorem c3_missing_key_yields_generic_404 :
    (submit_paper dbNoKey 1 ⟨[⟨1, 1⟩], 5⟩).response =
      .error ⟨404, "No answers found for this paper"⟩ ∧
    (submit_paper dbNoKey 1 ⟨[⟨1, 1⟩], 5⟩).db = dbNoKey ∧
    get_paper dbEmpty 1 = .error ⟨404, "Paper not found"⟩ := by
  refine ⟨by decide, by decide, by decide⟩

/-- C4 is refuted by the code: the submit endpoint of the `app` router
creates *zero* Submission rows — it grades and returns the result without
any `db.add`, leaving the database unchanged on every input — while the
`routes.py` submit path does create exactly one row and leaves the answer
key store unmutated. -/
theorem c4_router_submit_records_nothing :
    (∀ (db : DB) (pid : Nat) (s : PaperSubmission),
      (submit_paper db pid s).db = db) ∧
    (submit_paper dbOneKey 1 ⟨[⟨1, 1⟩], 10⟩).response = .ok ⟨1, 50, 2, 10⟩ ∧
    (submit_paper_routes dbOneKey 1 7 [⟨1, 1⟩] 10).db.paper_submissions =
      dbOneKey.paper_submissions ++ [⟨1, 7, 10, 1, [⟨1, 1⟩]⟩] ∧
    (submit_paper_routes dbOneKey 1 7 [⟨1, 1⟩] 10).db.mcq_answers =
      dbOneKey.mcq_answers := by
  refine ⟨?_, submit_single_response, by decide, by decide⟩
  intro db pid s
  unfold submit_paper
  split <;> rfl

/-- C6 is refuted by the code: nothing rejects a submission containing the
same question twice, and each duplicate is counted again, so total_correct
can exceed the answer-key size. With K = {1 ↦ 1} and
S = [(1,1), (1,1)], total_correct = 2 > min(len S, len K) = 1. -/
theorem c6_duplicate_answers_break_min_bound :
    total_correct_of [((1 : Int), (1 : Int))]
        [(⟨1, 1⟩ : SubmittedAnswer Int), ⟨1, 1⟩] = 2 ∧
    ¬(total_correct_of [((1 : Int), (1 : Int))]
          [(⟨1, 1⟩ : SubmittedAnswer Int), ⟨1, 1⟩]
        ≤ min ([(⟨1, 1⟩ : SubmittedAnswer Int), ⟨1, 1⟩].length)
            ([((1 : Int), (1 : Int))].length)) := by
  refine ⟨by decide, by decide⟩

/-- C6 (amended): for every answer key K and every submission S whose
question numbers are pairwise distinct — the shape every well-formed
client produces — total_correct ≤ min(len S, len K). -/
theorem c6_total_correct_le_min_of_nodup {α : Type} [DecidableEq α]
    (key : List (Int × α)) (answers : List (SubmittedAnswer α))
    (h : (answers.map (fun a => a.question_number)).Nodup) :
    total_correct_of key answers ≤ min answers.length key.length := by
  refine le_min ?_ ?_
  · exact List.countP_le_length (isCorrect key)
  · have hlen : total_correct_of key answers =
        (answers.filter (isCorrect key)).length := by
      rw [total_correct_of, List.countP_eq_length_filter]
    have hsub : List.Sublist (answers.filter (isCorrect key)) answers :=
      List.filter_sublist answers
    have hnodup : ((answers.filter (isCorrect key)).map
        (fun a => a.question_number)).Nodup :=
      (hsub.map (fun a => a.question_number)).nodup h
    have hsubset : (answers.filter (isCorrect key)).map
        (fun a => a.question_number) ⊆ key.map Prod.fst := by
      intro q hq
      rcases List.mem_map.mp hq with ⟨a, haF, rfl⟩
      have hpa : isCorrect key a = true := List.of_mem_filter haF
      have hd : dictOf key a.question_number = some a.selected_option :=
        of_decide_eq_true hpa
      exact dictOf_eq_some_mem hd
    have hle := (List.subperm_of_subset hnodup hsubset).length_le
    rw [List.length_map, List.length_map] at hle
    rw [hlen]
    exact hle

/-- Witness for C6 (amended) at a concrete input: S = [(1,1), (5,9)] has
distinct question numbers and scores 1 ≤ min 2 2 against K = {1↦1, 2↦2}. -/
theorem c6_witness :
    (([(⟨1, 1⟩ : SubmittedAnswer Int), ⟨5, 9⟩].map
        (fun a => a.question_number)).Nodup) ∧
    total_correct_of [((1 : Int), (1 : Int)), (2, 2)]
        [(⟨1, 1⟩ : SubmittedAnswer Int), ⟨5, 9⟩]
      ≤ min ([(⟨1, 1⟩ : SubmittedAnswer Int), ⟨5, 9⟩].length)
          ([((1 : Int), (1 : Int)), (2, 2)].length) :=
  ⟨by decide,
   c6_total_correct_le_min_of_nodup [((1 : Int), (1 : Int)), (2, 2)]
     [⟨1, 1⟩, ⟨5, 9⟩] (by decide)⟩

/-- C7: a submitted pair whose question is absent from the answer key is
ignored by scoring — total_correct is that of the remaining answers and
total_questions stays the key-row count — yet it still appears in the
per-question breakdown, in submission order, with correct_option = none
and is_correct = false. -/
theorem c7_unknown_question_ignored {α : Type} [DecidableEq α]
    (key : List (Int × α)) (S1 S2 : List (SubmittedAnswer α)) (q : Int) (o : α)
    (hq : q ∉ key.map Prod.fst) (hkey : key ≠ []) :
    check_user_answers key (S1 ++ ⟨q, o⟩ :: S2) =
      .ok ⟨key.length, total_correct_of key (S1 ++ S2),
        ((total_correct_of key (S1 ++ S2) : ℚ) / (key.length : ℚ)) * 100,
        check_details key S1 ++ ⟨q, o, none, false⟩ :: check_details key S2⟩ := by
  have hnone : dictOf key q = none := dictOf_eq_none_of_not_mem hq
  have hic : isCorrect key (⟨q, o⟩ : SubmittedAnswer α) = false := by
    simp [isCorrect, hnone]
  have htc : total_correct_of key (S1 ++ ⟨q, o⟩ :: S2) =
      total_correct_of key (S1 ++ S2) := by
    simp [total_correct_of, List.countP_append, List.countP_cons, hic]
  have hdet : check_details key (S1 ++ ⟨q, o⟩ :: S2) =
      check_details key S1 ++ ⟨q, o, none, false⟩ :: check_details key S2 := by
    simp [check_details, hnone, hic, isCorrect]
  simp [check_user_answers, List.isEmpty_iff, hkey, htc, hdet]

/-- Witness for C7, Scenario C of the spec: K = {1 ↦ 'A'},
S = [(1,'A'), (5,'B')]; question 5 is not in the key, total_correct = 1,
total_questions = 1, and question 5 appears in the breakdown with
correct_option = none. -/
theorem c7_witness :
    ((5 : Int) ∉ ([((1 : Int), 'A')].map Prod.fst)) ∧
    check_user_answers [((1 : Int), 'A')]
        ([(⟨1, 'A'⟩ : SubmittedAnswer Char)] ++ ⟨5, 'B'⟩ :: []) =
      .ok ⟨[((1 : Int), 'A')].length,
        total_correct_of [((1 : Int), 'A')]
          ([(⟨1, 'A'⟩ : SubmittedAnswer Char)] ++ []),
        ((total_correct_of [((1 : Int), 'A')]
            ([(⟨1, 'A'⟩ : SubmittedAnswer Char)] ++ []) : ℚ) /
          (([((1 : Int), 'A')].length : Nat) : ℚ)) * 100,
        check_details [((1 : Int), 'A')] [(⟨1, 'A'⟩ : SubmittedAnswer Char)] ++
          ⟨5, 'B', none, false⟩ :: check_details [((1 : Int), 'A')] []⟩ ∧
    total_correct_of [((1 : Int), 'A')]
        ([(⟨1, 'A'⟩ : SubmittedAnswer Char)] ++ []) = 1 ∧
    [((1 : Int), 'A')].length = 1 :=
  ⟨by decide,
   c7_unknown_question_ignored [((1 : Int), 'A')] [⟨1, 'A'⟩] [] 5 'B'
     (by decide) (by decide),
   by decide, by decide⟩

/-- C8 is refuted by the code: no validation exists anywhere on the submit
path. A submission with negative time_spent, a duplicated question_number
and an out-of-domain selected_option is accepted and graded normally,
returning 200 with the malformed time echoed back. -/
theorem c8_malformed_submission_accepted :
    (submit_paper dbOneKey 1 ⟨[⟨1, 1⟩, ⟨1, 99⟩], -5⟩).response =
      .ok ⟨1, 50, 2, -5⟩ := by
  have htc : total_correct_of (keyPairs dbOneKey 1)
      ([⟨1, 1⟩, ⟨1, 99⟩] : List (SubmittedAnswer Int)) = 1 := by decide
  rw [submit_paper_ok_of_ne (by decide)]
  simp only [Except.ok.injEq, SubmissionResult.mk.injEq]
  norm_num [htc]

/-- C8 (amended): `record_submission` performs no input validation at all:
whenever the paper has any answer key, every submission — including ones
with negative time_spent, duplicate question numbers or out-of-domain
options — is accepted and scored, the submitted time_spent being echoed
unchanged. -/
theorem c8_no_validation_always_ok (db : DB) (pid : Nat)
    (s : PaperSubmission) (h : keyRows db pid ≠ []) :
    (submit_paper db pid s).response =
      .ok ⟨total_correct_of (keyPairs db pid) s.answers, 50,
        ((total_correct_of (keyPairs db pid) s.answers : ℚ) / 50) * 100,
        s.time_spent⟩ := by
  simp [submit_paper, List.isEmpty_iff, h]

/-- Witness for C8 (amended) at the malformed concrete input: duplicate
question 1, option 99, time_spent −5, all accepted. -/
theorem c8_witness :
    keyRows dbOneKey 1 ≠ [] ∧
    (submit_paper dbOneKey 1 ⟨[⟨1, 1⟩, ⟨1, 99⟩], -5⟩).response =
      .ok ⟨total_correct_of (keyPairs dbOneKey 1) [⟨1, 1⟩, ⟨1, 99⟩], 50,
        ((total_correct_of (keyPairs dbOneKey 1) [⟨1, 1⟩, ⟨1, 99⟩] : ℚ) / 50) * 100,
        -5⟩ ∧
    total_correct_of (keyPairs dbOneKey 1) [⟨1, 1⟩, ⟨1, 99⟩] = 1 :=
  ⟨by decide,
   c8_no_validation_always_ok dbOneKey 1 ⟨[⟨1, 1⟩, ⟨1, 99⟩], -5⟩ (by decide),
   by decide⟩

/-- C10: whenever the answer-check view exists (the key is non-empty), its
detailed breakdown has exactly one entry per submitted answer, in
submission order (the question/option pairs of the breakdown are the
submitted pairs), and total_correct equals the number of breakdown entries
whose is_correct flag is true. -/
theorem c10_breakdown_matches_submission {α : Type} [DecidableEq α]
    (key : List (Int × α)) (answers : List (SubmittedAnswer α))
    (hkey : key ≠ []) :
    ∃ r, check_user_answers key answers = .ok r ∧
      r.detailed_results.length = answers.length ∧
      r.detailed_results.map (fun d => (d.question_number, d.selected_option))
        = answers.map (fun a => (a.question_number, a.selected_option)) ∧
      r.total_correct = r.detailed_results.countP (fun d => d.is_correct) := by
  refine ⟨⟨key.length, total_correct_of key answers,
    ((total_correct_of key answers : ℚ) / (key.length : ℚ)) * 100,
    check_details key answers⟩, ?_, ?_, ?_, ?_⟩
  · simp [check_user_answers, List.isEmpty_iff, hkey]
  · simp [check_details]
  · simp [check_details, List.map_map]
  · simp [check_details, total_correct_of, List.countP_map]
    rfl

/-- Witness for C10 at a concrete input: K = {1 ↦ 1},
S = [(1,1), (2,5)] — two breakdown entries, one correct. -/
theorem c10_witness :
    ([((1 : Int), (1 : Int))] : List (Int × Int)) ≠ [] ∧
    ∃ r, check_user_answers [((1 : Int), (1 : Int))]
          [(⟨1, 1⟩ : SubmittedAnswer Int), ⟨2, 5⟩] = .ok r ∧
      r.detailed_results.length =
        [(⟨1, 1⟩ : SubmittedAnswer Int), ⟨2, 5⟩].length ∧
      r.detailed_results.map (fun d => (d.question_number, d.selected_option))
        = [(⟨1, 1⟩ : SubmittedAnswer Int), ⟨2, 5⟩].map
            (fun a => (a.question_number, a.selected_option)) ∧
      r.total_correct = r.detailed_results.countP (fun d => d.is_correct) :=
  ⟨by decide,
   c10_breakdown_matches_submission [((1 : Int), (1 : Int))]
     [⟨1, 1⟩, ⟨2, 5⟩] (by decide)⟩

end ChemPartner
